import Mathlib

set_option linter.unusedVariables false

/-
Shallow embedding of the push-notification relay (main.go).

The repository is a single Go program that relays push notifications to a
mobile push gateway.  We embed the pure control flow of the program:

  * the error classifier `PushError.Permanent` / `PushError.Retryable`
    (main.go lines 46-61),
  * the transport-client registry `ClientMap` with `Create` and map lookup
    (main.go lines 63-72),
  * one delivery attempt `Push` (main.go lines 144-179),
  * the dispatcher retry loop `push` (main.go lines 195-235),
  * the device bookkeeping transform `updateDeviceStats`
    (main.go lines 237-257).

The network and the datastore are modelled as oracles: an `HttpResult` per
attempt describes what the gateway did on that attempt, and the store
operations the dispatcher would issue are recorded in an effect trace
(`DispatchTrace`) instead of being executed.  Go `int` is modelled as `Int`,
`time.Time` values as `Nat` ticks, and byte slices as `List Nat`.
-/

/- Device mirrors the Go `Device` datastore struct (main.go lines 22-36).
The Go `int` fields are 64-bit two's-complement integers on the deployment
platform (golang on linux/amd64 per the Dockerfile); they are carried as
`Int` values in the signed 64-bit range, and every arithmetic operation
the program performs on them goes through `wrap64` below, so overflow
wraps exactly as Go `int` does. -/
structure Device where
  ApiVersion : Int
  App : String
  Created : Nat
  DeviceId : String
  DeviceInfo : String
  Environment : String
  Failures : Int
  LastSuccess : Nat
  Platform : String
  Token : String
  TotalFailures : Int
  TotalSuccesses : Int
  Updated : Nat
  deriving Repr, DecidableEq

/- Payload mirrors the Go `Payload` JSON struct (main.go lines 38-44); the
raw JSON `Data` field is opaque bytes. -/
structure Payload where
  AccountID : Int
  App : String
  Data : List Nat
  DeviceToken : String
  Environment : String
  deriving Repr, DecidableEq

/- PushError mirrors the Go `PushError` value (main.go lines 46-49): a
failure response carrying the raw body bytes and the HTTP status code. -/
structure PushError where
  Body : List Nat
  StatusCode : Nat
  deriving Repr, DecidableEq

/-- Classifier: permanent failures are status 400 or 410 (main.go 55-57). -/
def PushError.Permanent (pe : PushError) : Bool :=
  pe.StatusCode == 400 || pe.StatusCode == 410

/-- Classifier: retryable failures are status 429, 500 or 503 (main.go 59-61). -/
def PushError.Retryable (pe : PushError) : Bool :=
  pe.StatusCode == 429 || pe.StatusCode == 500 || pe.StatusCode == 503

/- A transport handle.  The Go value is an `*http.Client` built by
`NewClient` from the application's TLS credentials (main.go 119-142); the
TLS/HTTP2 construction is I/O, so the handle is abstracted to a token
remembering which application it serves. -/
structure Client where
  app : String
  deriving Repr, DecidableEq

/-- Abstraction of Go `NewClient` (main.go 119-142): produce the transport
handle for an application.  Certificate loading failures abort the Go
process before serving; the model keeps only the successful construction. -/
def NewClient (app : String) : Client :=
  { app := app }

/- ClientMap mirrors Go `type ClientMap map[string]*http.Client`
(main.go 63), as an association list. -/
structure ClientMap where
  entries : List (String × Client)
  deriving Repr, DecidableEq

/-- Map lookup `clients[app]`: `some c` when present, `none` otherwise. -/
def ClientMap.get (m : ClientMap) (app : String) : Option Client :=
  List.lookup app m.entries

/- Result of a Go function that can panic instead of returning. -/
inductive PanicOr (α : Type) where
  | fatal (msg : String)
  | value (v : α)
  deriving Repr, DecidableEq

/-- ClientMap.Create (main.go 65-72): if the app already has a client the
Go code panics, leaving the map untouched; otherwise it stores a freshly
constructed client and returns it.  The returned map is the map after the
call. -/
def ClientMap.Create (m : ClientMap) (app : String) : PanicOr Client × ClientMap :=
  match ClientMap.get m app with
  | some _ => (.fatal "tried to overwrite existing client", m)
  | none =>
    let client := NewClient app
    (.value client, { entries := (app, client) :: m.entries })

/-- MaxRetries (main.go 86). -/
def MaxRetries : Nat := 3

/-- AppleHost (main.go 83). -/
def AppleHost : String := "https://api.push.apple.com"

/-- AppleHostDev (main.go 84). -/
def AppleHostDev : String := "https://api.development.push.apple.com"

/-- Gateway URL selection (main.go 150-155). -/
def pushUrl (env deviceToken : String) : String :=
  if env == "development" then
    AppleHostDev ++ "/3/device/" ++ deviceToken
  else
    AppleHost ++ "/3/device/" ++ deviceToken

/- Oracle describing what the gateway does for one delivery attempt:
either `client.Do` fails at transport level (connection, timeout, DNS),
or a response arrives with a status code and a body, or a response
arrives but reading its body fails (`ioutil.ReadAll` error). -/
inductive HttpResult where
  | transportError (msg : String)
  | response (statusCode : Nat) (body : List Nat)
  | responseReadError (statusCode : Nat)
  deriving Repr, DecidableEq

/- Value of Go `Push`'s `err` return: `ok` is `err == nil`; `invalidApp`
is the recoverable unknown-application error (main.go 147); the other
constructors are the non-`PushError` transport and body-read errors and
the classified `PushError`. -/
inductive PushResult where
  | ok
  | invalidApp
  | transportError (msg : String)
  | readError
  | pushErr (pe : PushError)
  deriving Repr, DecidableEq

/- Observable side effects of one `Push` call: whether the client map was
consulted for the app, whether the global `timestamp` variable was
written (main.go 169), and whether the full response body was read
(main.go 174). -/
structure PushEffects where
  lookupAttempted : Bool
  timestampUpdated : Bool
  bodyRead : Bool
  deriving Repr, DecidableEq

/-- One delivery attempt, Go `Push` (main.go 144-179).  The lookup
`clients[app]` happens first; an absent app returns the recoverable
`invalidApp` error.  On any response `timestamp = time.Now()` runs before
the status check, so the timestamp write happens for every response.  On
status 200 the function returns nil immediately without reading the body;
otherwise it reads the full body and returns a `PushError`. -/
def Push (clients : ClientMap) (app deviceToken env : String) (data : List Nat)
    (net : HttpResult) : PushResult × PushEffects :=
  match ClientMap.get clients app with
  | none =>
    (.invalidApp, { lookupAttempted := true, timestampUpdated := false, bodyRead := false })
  | some _client =>
    let _url := pushUrl env deviceToken
    match net with
    | .transportError msg =>
      (.transportError msg,
       { lookupAttempted := true, timestampUpdated := false, bodyRead := false })
    | .response status body =>
      if status == 200 then
        (.ok, { lookupAttempted := true, timestampUpdated := true, bodyRead := false })
      else
        (.pushErr { Body := body, StatusCode := status },
         { lookupAttempted := true, timestampUpdated := true, bodyRead := true })
    | .responseReadError status =>
      if status == 200 then
        (.ok, { lookupAttempted := true, timestampUpdated := true, bodyRead := false })
      else
        (.readError, { lookupAttempted := true, timestampUpdated := true, bodyRead := false })

/- A datastore operation the dispatcher issues for the device record:
`store.Delete` (main.go 209) or `updateDeviceStats` with its success flag
(main.go 218). -/
inductive StoreOp where
  | deleteRecord
  | update (success : Bool)
  deriving Repr, DecidableEq

/- Terminal states of one dispatcher run. -/
inductive DispatchOutcome where
  | succeeded
  | droppedPermanent
  | droppedTerminal
  | droppedExhausted
  | droppedUnrecognizedApp
  deriving Repr, DecidableEq

/- Effect trace of one dispatcher run: how many delivery attempts were
made, how many client-map lookups happened, the datastore operations in
order, the backoff sleeps (in seconds) in order, and the terminal state. -/
structure DispatchTrace where
  attempts : Nat
  lookups : Nat
  storeOps : List StoreOp
  sleeps : List Nat
  finalState : DispatchOutcome
  deriving Repr, DecidableEq

/-- Go `err == nil` test on the result of `Push` (main.go 221). -/
def errIsNil : PushResult → Bool
  | .ok => true
  | _ => false

/-- The dispatcher's guard `err, ok := err.(PushError); ok && err.Permanent()`
(main.go 206). -/
def isPermanentPushError : PushResult → Bool
  | .pushErr pe => pe.Permanent
  | _ => false

/-- Trace of the branch at main.go 206-217.  Its guard already requires
`pe.Permanent()`, so the inner `else if !err.Retryable()` log-and-drop arm
(main.go 212-214) is unreachable; the inner conditionals are kept verbatim.
The wildcard arm is never hit: the caller enters only when
`isPermanentPushError res` holds, which forces the `pushErr` shape. -/
def permanentTrace (res : PushResult) (lk : Nat) : DispatchTrace :=
  match res with
  | .pushErr pe =>
    { attempts := 1, lookups := lk,
      storeOps := if pe.Permanent then [.deleteRecord] else [],
      sleeps := [],
      finalState :=
        if pe.Permanent then .droppedPermanent
        else if !pe.Retryable then .droppedTerminal
        else .droppedTerminal }
  | _ =>
    { attempts := 1, lookups := lk, storeOps := [], sleeps := [],
      finalState := .droppedTerminal }

/-- One iteration of the dispatcher's retry loop, Go `for` body in `push`
(main.go 205-233).  It performs one `Push`; a permanent `PushError`
deletes the record and returns; otherwise `updateDeviceStats` records
success or failure, a nil error returns, exhausted retries
(`attempt >= MaxRetries`) drop, and otherwise the loop sleeps
`2^(attempt-1)` seconds and continues with `rest`, the trace of the
remaining iterations. -/
def pushStep (clients : ClientMap) (payload : Payload) (net : Nat → HttpResult)
    (attempt : Nat) (rest : Option DispatchTrace) : Option DispatchTrace :=
  let step := Push clients payload.App payload.DeviceToken payload.Environment
    payload.Data (net attempt)
  let res := step.1
  let lk := if step.2.lookupAttempted then 1 else 0
  if isPermanentPushError res then
    some (permanentTrace res lk)
  else
    let success := errIsNil res
    let op := StoreOp.update success
    if success then
      some { attempts := 1, lookups := lk, storeOps := [op], sleeps := [],
             finalState := .succeeded }
    else if MaxRetries ≤ attempt then
      some { attempts := 1, lookups := lk, storeOps := [op], sleeps := [],
             finalState := .droppedExhausted }
    else
      rest.map fun r =>
        { attempts := r.attempts + 1, lookups := r.lookups + lk,
          storeOps := op :: r.storeOps,
          sleeps := 2 ^ (attempt - 1) :: r.sleeps,
          finalState := r.finalState }

/-- The dispatcher's retry loop, Go `for` loop in `push` (main.go 204-234);
`attempt` starts at 1.  The Go loop is syntactically unbounded, so the
model takes a fuel argument and returns `none` on fuel exhaustion; fuel
`MaxRetries` is proven adequate by the theorems below, whose `some`
results certify termination of the embedded loop. -/
def pushLoop (clients : ClientMap) (payload : Payload) (net : Nat → HttpResult) :
    Nat → Nat → Option DispatchTrace
  | 0, _ => none
  | fuel + 1, attempt =>
    pushStep clients payload net attempt
      (pushLoop clients payload net fuel (attempt + 1))

/-- The dispatcher, Go `push` (main.go 195-235).  An empty application
identifier is logged as unrecognized and dropped before any lookup or
attempt (main.go 197-200); otherwise the retry loop runs from attempt 1. -/
def push (clients : ClientMap) (payload : Payload) (net : Nat → HttpResult) :
    Option DispatchTrace :=
  if payload.App == "" then
    some { attempts := 0, lookups := 0, storeOps := [], sleeps := [],
           finalState := .droppedUnrecognizedApp }
  else
    pushLoop clients payload net MaxRetries 1

/-- Two's-complement wraparound of a signed 64-bit integer: the result of
a Go `int` operation whose mathematical value is `x`.  Maps any `Int` into
the range from `-2^63` up to `2^63 - 1`; Go signed integer overflow wraps
deterministically this way. -/
def wrap64 (x : Int) : Int :=
  (x + 2 ^ 63) % 2 ^ 64 - 2 ^ 63

/-- The read-modify-write body of Go `updateDeviceStats` (main.go 237-257).
The surrounding datastore transaction (`RunInTransaction` with `tx.Get` and
`tx.Put`) is abstracted to the pure transform it commits on the freshly
read record.  The `+= 1` increments are Go `int` additions, so they wrap
at the 64-bit boundary. -/
def updateDeviceStats (device : Device) (now : Nat) (success : Bool) : Device :=
  let device := { device with Updated := now }
  if success then
    { device with LastSuccess := now,
                  TotalSuccesses := wrap64 (device.TotalSuccesses + 1),
                  Failures := 0 }
  else
    { device with Failures := wrap64 (device.Failures + 1),
                  TotalFailures := wrap64 (device.TotalFailures + 1) }

/-- An outcome that the dispatcher treats as retry-worthy: a transport
level error, or a response whose status the classifier marks Retryable. -/
def retryishOutcome : HttpResult → Bool
  | .transportError _ => true
  | .response s _ => s == 429 || s == 500 || s == 503
  | .responseReadError _ => false

/-- Whether a delivery attempt received a response from the gateway at all
(as opposed to failing at transport level before any response). -/
def receivedResponse : HttpResult → Bool
  | .transportError _ => false
  | .response _ _ => true
  | .responseReadError _ => true

/- Concrete fixtures used by witnesses and counterexamples.  The registry
is the one `main` builds (main.go 100): exactly the app
"cam.reaction.ReactionCam". -/

def initialClients : ClientMap :=
  (ClientMap.Create { entries := [] } "cam.reaction.ReactionCam").2

def demoPayload : Payload :=
  { AccountID := 7, App := "cam.reaction.ReactionCam", Data := [123, 125],
    DeviceToken := "feedbead", Environment := "production" }

def unknownAppPayload : Payload :=
  { demoPayload with App := "com.example.unknown" }

def emptyAppPayload : Payload :=
  { demoPayload with App := "" }

def all503 : Nat → HttpResult := fun _ => .response 503 []

def all403 : Nat → HttpResult := fun _ => .response 403 []

def all200 : Nat → HttpResult := fun _ => .response 200 []

/- A device record with ordinary counter values. -/
def demoDevice : Device :=
  { ApiVersion := 1, App := "cam.reaction.ReactionCam", Created := 0,
    DeviceId := "d1", DeviceInfo := "phone", Environment := "production",
    Failures := 2, LastSuccess := 0, Platform := "ios", Token := "feedbead",
    TotalFailures := 5, TotalSuccesses := 9, Updated := 0 }

/- A device record whose lifetime-success counter sits at MaxInt64, the
largest value a Go `int` holds. -/
def maxedDevice : Device :=
  { demoDevice with TotalSuccesses := 2 ^ 63 - 1 }

/- Helper lemmas shared by several claim proofs. -/

/-- Wraparound is the identity on values already in the signed 64-bit
range. -/
theorem wrap64_eq_of_mem (x : Int) (h1 : -(2 ^ 63) ≤ x) (h2 : x < 2 ^ 63) :
    wrap64 x = x := by
  simp only [wrap64]
  omega

/-- Unfolding: `pushLoop` with fuel 3 runs one step and recurses with fuel 2. -/
theorem pushLoop_three (clients : ClientMap) (p : Payload) (net : Nat → HttpResult)
    (attempt : Nat) :
    pushLoop clients p net 3 attempt =
      pushStep clients p net attempt (pushLoop clients p net 2 (attempt + 1)) := rfl

/-- Unfolding: `pushLoop` with fuel 2 runs one step and recurses with fuel 1. -/
theorem pushLoop_two (clients : ClientMap) (p : Payload) (net : Nat → HttpResult)
    (attempt : Nat) :
    pushLoop clients p net 2 attempt =
      pushStep clients p net attempt (pushLoop clients p net 1 (attempt + 1)) := rfl

/-- Unfolding: `pushLoop` with fuel 1 runs one step and recurses with fuel 0. -/
theorem pushLoop_one (clients : ClientMap) (p : Payload) (net : Nat → HttpResult)
    (attempt : Nat) :
    pushLoop clients p net 1 attempt =
      pushStep clients p net attempt (pushLoop clients p net 0 (attempt + 1)) := rfl

/-- Every `Push` call consults the client map for the app first. -/
theorem Push_lookupAttempted (clients : ClientMap) (app tok env : String)
    (data : List Nat) (net : HttpResult) :
    (Push clients app tok env data net).2.lookupAttempted = true := by
  unfold Push
  cases hg : ClientMap.get clients app
  · rfl
  · cases net with
    | transportError m => rfl
    | response s b => by_cases h : (s == 200) = true <;> simp [h]
    | responseReadError s => by_cases h : (s == 200) = true <;> simp [h]

/-- A retry-worthy outcome produces neither a permanent `PushError` nor a
nil error from `Push` when the app is registered. -/
theorem retryish_step (clients : ClientMap) (app tok env : String) (data : List Nat)
    (r : HttpResult) (c : Client) (hc : ClientMap.get clients app = some c)
    (hr : retryishOutcome r = true) :
    isPermanentPushError (Push clients app tok env data r).1 = false ∧
    errIsNil (Push clients app tok env data r).1 = false := by
  cases r with
  | transportError m => simp [Push, hc, isPermanentPushError, errIsNil]
  | responseReadError s => simp [retryishOutcome] at hr
  | response s b =>
    simp [retryishOutcome] at hr
    have h200 : ¬ (s = 200) := by omega
    have h400 : ¬ (s = 400) := by omega
    have h410 : ¬ (s = 410) := by omega
    simp [Push, hc, isPermanentPushError, errIsNil, PushError.Permanent, h200, h400, h410]

/-- C1: the spec says a delivery outcome whose status is outside
{200, 400, 410, 429, 500, 503} (e.g. 403) gets exactly one failure
bookkeeping update and is then dropped with no further delivery attempt.
The code instead treats such an outcome like a retryable failure: with 403
on every attempt the dispatcher makes 3 delivery attempts, records 3
failure updates, sleeps 1s and 2s, and drops as retry-exhausted.  The
non-retryable drop branch (main.go 212-214) is unreachable because its
enclosing guard (main.go 206) already requires a permanent status, so the
spec describes the evident intent and the code diverges from it. -/
theorem C1_nonretryable_is_retried :
    push initialClients demoPayload all403 =
      some { attempts := 3, lookups := 3,
             storeOps := [.update false, .update false, .update false],
             sleeps := [1, 2], finalState := .droppedExhausted } := by decide

/-- C2 counterexample: "com.example.unknown" is not registered in the
transport registry, yet the dispatcher does not drop the notification
immediately: it performs three client-map lookups and three delivery
attempts, and touches the device record with three failure updates,
because the unrecognized-app guard (main.go 197) only fires on the empty
application identifier. -/
theorem C2_counterexample :
    ClientMap.get initialClients unknownAppPayload.App = none ∧
    push initialClients unknownAppPayload all200 =
      some { attempts := 3, lookups := 3,
             storeOps := [.update false, .update false, .update false],
             sleeps := [1, 2], finalState := .droppedExhausted } := by decide

/-- C2 amended: only a notification whose application identifier is the
empty string is dropped immediately with the unrecognized-app log, with no
lookup, no delivery attempt and no device-record operation; a notification
whose non-empty identifier is absent from the registry instead fails the
lookup inside each delivery attempt and is treated like a retryable
failure: three attempts, a failure bookkeeping update per attempt, backoff
sleeps of 1s and 2s, then dropped as retry-exhausted. -/
theorem C2_unregistered_app (clients : ClientMap) (p : Payload)
    (net : Nat → HttpResult) :
    (p.App = "" →
      push clients p net =
        some { attempts := 0, lookups := 0, storeOps := [], sleeps := [],
               finalState := .droppedUnrecognizedApp }) ∧
    (p.App ≠ "" → ClientMap.get clients p.App = none →
      push clients p net =
        some { attempts := 3, lookups := 3,
               storeOps := [.update false, .update false, .update false],
               sleeps := [1, 2], finalState := .droppedExhausted }) := by
  constructor
  · intro h
    simp [push, h]
  · intro h hget
    have hb : (p.App == "") = false := by simp [h]
    simp only [push, hb, Bool.false_eq_true, if_false, MaxRetries]
    rw [pushLoop_three, pushLoop_two, pushLoop_one]
    simp [pushStep, Push, hget, isPermanentPushError, errIsNil, MaxRetries]

/-- C2 witness: the amended claim applied to the empty-identifier payload
and to a concrete unregistered identifier. -/
theorem C2_unregistered_app_witness :
    push initialClients emptyAppPayload all200 =
      some { attempts := 0, lookups := 0, storeOps := [], sleeps := [],
             finalState := .droppedUnrecognizedApp } ∧
    push initialClients unknownAppPayload all503 =
      some { attempts := 3, lookups := 3,
             storeOps := [.update false, .update false, .update false],
             sleeps := [1, 2], finalState := .droppedExhausted } :=
  ⟨(C2_unregistered_app initialClients emptyAppPayload all200).1 rfl,
   (C2_unregistered_app initialClients unknownAppPayload all503).2
     (by decide) (by decide)⟩

/-- C3 counterexample: a delivery attempt whose response has status 500
still updates the process-wide last-successful-delivery timestamp, because
`timestamp = time.Now()` (main.go 169) runs on every response before the
status check, contradicting "a response with any other status leaves the
timestamp unchanged". -/
theorem C3_counterexample :
    (Push initialClients "cam.reaction.ReactionCam" "feedbead" "production" [123]
        (.response 500 [7])).2.timestampUpdated = true := by decide

/-- C3 amended: for a registered application, the process-wide timestamp is
updated if and only if the delivery attempt received a response from the
gateway, whatever its status; a transport-level failure leaves it
unchanged. -/
theorem C3_timestamp_on_response (clients : ClientMap) (app tok env : String)
    (data : List Nat) (net : HttpResult) (c : Client)
    (hc : ClientMap.get clients app = some c) :
    (Push clients app tok env data net).2.timestampUpdated = receivedResponse net := by
  cases net with
  | transportError m => simp [Push, hc, receivedResponse]
  | response s b =>
    by_cases h : (s == 200) = true <;> simp [Push, hc, receivedResponse, h]
  | responseReadError s =>
    by_cases h : (s == 200) = true <;> simp [Push, hc, receivedResponse, h]

/-- C3 witness: the amended claim evaluated on a 500 response for the
registered application. -/
theorem C3_timestamp_on_response_witness :
    (Push initialClients "cam.reaction.ReactionCam" "feedbead" "production" [123]
        (.response 500 [7])).2.timestampUpdated =
      receivedResponse (.response 500 [7]) :=
  C3_timestamp_on_response initialClients "cam.reaction.ReactionCam" "feedbead"
    "production" [123] (.response 500 [7]) (NewClient "cam.reaction.ReactionCam")
    (by decide)

/-- C4: a delivery outcome with status 400 or 410 is classified Permanent,
and the dispatcher stops after that single attempt, issues exactly one
device-record delete, and performs no bookkeeping update on the record. -/
theorem C4_permanent_delete (clients : ClientMap) (p : Payload)
    (net : Nat → HttpResult) (c : Client) (status : Nat) (body : List Nat)
    (happ : p.App ≠ "")
    (hc : ClientMap.get clients p.App = some c)
    (hs : status = 400 ∨ status = 410)
    (hnet : net 1 = .response status body) :
    (PushError.mk body status).Permanent = true ∧
    push clients p net =
      some { attempts := 1, lookups := 1, storeOps := [.deleteRecord], sleeps := [],
             finalState := .droppedPermanent } := by
  have hperm : (PushError.mk body status).Permanent = true := by
    rcases hs with h | h <;> simp [PushError.Permanent, h]
  refine ⟨hperm, ?_⟩
  have hb : (p.App == "") = false := by simp [happ]
  have h200 : ¬ (status = 200) := by rcases hs with h | h <;> omega
  simp only [push, hb, Bool.false_eq_true, if_false, MaxRetries]
  rw [pushLoop_three]
  simp [pushStep, hnet, Push, hc, h200, isPermanentPushError, hperm, permanentTrace]

/-- C4 witness: the claim applied to status 410 on the registered app. -/
theorem C4_permanent_delete_witness :
    (PushError.mk [1] 410).Permanent = true ∧
    push initialClients demoPayload (fun _ => .response 410 [1]) =
      some { attempts := 1, lookups := 1, storeOps := [.deleteRecord], sleeps := [],
             finalState := .droppedPermanent } :=
  C4_permanent_delete initialClients demoPayload (fun _ => .response 410 [1])
    (NewClient "cam.reaction.ReactionCam") 410 [1] (by decide) (by decide)
    (Or.inr rfl) rfl

/-- C5 counterexample: with status 503 on every attempt, the dispatcher's
backoff sleeps are 1s and 2s only — after the third failed attempt it
drops without sleeping, so the claimed delays "1s, 2s, 4s between
attempts" never occur (three total attempts leave room for two delays). -/
theorem C5_counterexample :
    (push initialClients demoPayload all503).map DispatchTrace.sleeps = some [1, 2] ∧
    (push initialClients demoPayload all503).map DispatchTrace.sleeps ≠
      some [1, 2, 4] := by decide

/-- C5 amended: for status 429, 500 or 503 (or a transport-level error) on
every attempt against a registered application, the classifier yields
Retryable, and the dispatcher makes exactly 3 total attempts with a
failure bookkeeping update per failed attempt, sleeping 2^(n-1) seconds
after failed attempt n while a retry remains (delays 1s then 2s between
the three attempts), and then drops the notification without a further
sleep. -/
theorem C5_retryable_three_attempts (clients : ClientMap) (p : Payload)
    (net : Nat → HttpResult) (c : Client)
    (happ : p.App ≠ "") (hc : ClientMap.get clients p.App = some c)
    (h1 : retryishOutcome (net 1) = true) (h2 : retryishOutcome (net 2) = true)
    (h3 : retryishOutcome (net 3) = true) :
    (∀ (b : List Nat) (s : Nat), s = 429 ∨ s = 500 ∨ s = 503 →
      (PushError.mk b s).Retryable = true) ∧
    push clients p net =
      some { attempts := 3, lookups := 3,
             storeOps := [.update false, .update false, .update false],
             sleeps := [1, 2], finalState := .droppedExhausted } := by
  constructor
  · intro b s hs
    rcases hs with h | h | h <;> simp [PushError.Retryable, h]
  · obtain ⟨p1, e1⟩ := retryish_step clients p.App p.DeviceToken p.Environment
      p.Data (net 1) c hc h1
    obtain ⟨p2, e2⟩ := retryish_step clients p.App p.DeviceToken p.Environment
      p.Data (net 2) c hc h2
    obtain ⟨p3, e3⟩ := retryish_step clients p.App p.DeviceToken p.Environment
      p.Data (net 3) c hc h3
    have hb : (p.App == "") = false := by simp [happ]
    simp only [push, hb, Bool.false_eq_true, if_false, MaxRetries]
    rw [pushLoop_three, pushLoop_two, pushLoop_one]
    simp [pushStep, p1, e1, p2, e2, p3, e3, Push_lookupAttempted, MaxRetries]

/-- C5 witness: the amended claim applied to 503 on every attempt. -/
theorem C5_retryable_three_attempts_witness :
    (∀ (b : List Nat) (s : Nat), s = 429 ∨ s = 500 ∨ s = 503 →
      (PushError.mk b s).Retryable = true) ∧
    push initialClients demoPayload all503 =
      some { attempts := 3, lookups := 3,
             storeOps := [.update false, .update false, .update false],
             sleeps := [1, 2], finalState := .droppedExhausted } :=
  C5_retryable_three_attempts initialClients demoPayload all503
    (NewClient "cam.reaction.ReactionCam") (by decide) (by decide)
    (by decide) (by decide) (by decide)

/-- C6: a delivery attempt returning status 200 makes the dispatcher
perform exactly one device-record update with success=true and terminate:
one attempt, no delete, no other store operation. -/
theorem C6_success_single_update (clients : ClientMap) (p : Payload)
    (net : Nat → HttpResult) (c : Client) (b : List Nat)
    (happ : p.App ≠ "") (hc : ClientMap.get clients p.App = some c)
    (hnet : net 1 = .response 200 b) :
    push clients p net =
      some { attempts := 1, lookups := 1, storeOps := [.update true], sleeps := [],
             finalState := .succeeded } := by
  have hb : (p.App == "") = false := by simp [happ]
  simp only [push, hb, Bool.false_eq_true, if_false, MaxRetries]
  rw [pushLoop_three]
  simp [pushStep, hnet, Push, hc, isPermanentPushError, errIsNil]

/-- C6 witness: the claim applied to a 200 response on the first attempt. -/
theorem C6_success_single_update_witness :
    push initialClients demoPayload all200 =
      some { attempts := 1, lookups := 1, storeOps := [.update true], sleeps := [],
             finalState := .succeeded } :=
  C6_success_single_update initialClients demoPayload all200
    (NewClient "cam.reaction.ReactionCam") [] (by decide) (by decide) rfl

/-- C7 counterexample: the lifetime counters are Go `int` (64-bit)
values, and the `+= 1` in `updateDeviceStats` wraps: a record whose
lifetime-success counter sits at MaxInt64 has it wrap to MinInt64 on the
next success update, so "both lifetime counters never decrease across any
update" is false at that record. -/
theorem C7_counterexample :
    (updateDeviceStats maxedDevice 1 true).TotalSuccesses = -(2 ^ 63) ∧
    (updateDeviceStats maxedDevice 1 true).TotalSuccesses <
      maxedDevice.TotalSuccesses := by decide

/-- C7 amended: for every device record whose consecutive-failure and
lifetime counters are valid signed 64-bit values strictly below MaxInt64,
a bookkeeping update sets the consecutive-failure counter to zero when it
records a success and increments it by exactly one when it records a
failure, and both lifetime counters never decrease; only at MaxInt64 does
the Go `int` increment wrap to MinInt64. -/
theorem C7_counter_invariants (d : Device) (now : Nat)
    (hf : -(2 ^ 63) ≤ d.Failures ∧ d.Failures < 2 ^ 63 - 1)
    (hts : -(2 ^ 63) ≤ d.TotalSuccesses ∧ d.TotalSuccesses < 2 ^ 63 - 1)
    (htf : -(2 ^ 63) ≤ d.TotalFailures ∧ d.TotalFailures < 2 ^ 63 - 1) :
    (updateDeviceStats d now true).Failures = 0 ∧
    (updateDeviceStats d now false).Failures = d.Failures + 1 ∧
    d.TotalSuccesses ≤ (updateDeviceStats d now true).TotalSuccesses ∧
    d.TotalFailures ≤ (updateDeviceStats d now true).TotalFailures ∧
    d.TotalSuccesses ≤ (updateDeviceStats d now false).TotalSuccesses ∧
    d.TotalFailures ≤ (updateDeviceStats d now false).TotalFailures := by
  have wf : wrap64 (d.Failures + 1) = d.Failures + 1 :=
    wrap64_eq_of_mem (d.Failures + 1) (by omega) (by omega)
  have ws : wrap64 (d.TotalSuccesses + 1) = d.TotalSuccesses + 1 :=
    wrap64_eq_of_mem (d.TotalSuccesses + 1) (by omega) (by omega)
  have wtf : wrap64 (d.TotalFailures + 1) = d.TotalFailures + 1 :=
    wrap64_eq_of_mem (d.TotalFailures + 1) (by omega) (by omega)
  refine ⟨?_, ?_, ?_, ?_, ?_, ?_⟩ <;> simp [updateDeviceStats, wf, ws, wtf]

/-- C7 witness: the amended claim applied to a record with ordinary
counter values. -/
theorem C7_counter_invariants_witness :
    (updateDeviceStats demoDevice 3 true).Failures = 0 ∧
    (updateDeviceStats demoDevice 3 false).Failures = demoDevice.Failures + 1 ∧
    demoDevice.TotalSuccesses ≤ (updateDeviceStats demoDevice 3 true).TotalSuccesses ∧
    demoDevice.TotalFailures ≤ (updateDeviceStats demoDevice 3 true).TotalFailures ∧
    demoDevice.TotalSuccesses ≤ (updateDeviceStats demoDevice 3 false).TotalSuccesses ∧
    demoDevice.TotalFailures ≤ (updateDeviceStats demoDevice 3 false).TotalFailures :=
  C7_counter_invariants demoDevice 3 (by decide) (by decide) (by decide)

/-- C8: creating a transport for an already-registered application fails
fatally with the overwrite panic and leaves the registry (and the existing
entry) unchanged, while a delivery attempt for an absent application
returns the recoverable unknown-application error instead of panicking. -/
theorem C8_registry_create_and_get (m : ClientMap) (app1 app2 tok env : String)
    (data : List Nat) (net : HttpResult) (c : Client)
    (h1 : ClientMap.get m app1 = some c)
    (h2 : ClientMap.get m app2 = none) :
    (ClientMap.Create m app1).1 = .fatal "tried to overwrite existing client" ∧
    (ClientMap.Create m app1).2 = m ∧
    ClientMap.get (ClientMap.Create m app1).2 app1 = some c ∧
    (Push m app2 tok env data net).1 = .invalidApp := by
  refine ⟨?_, ?_, ?_, ?_⟩ <;> simp [ClientMap.Create, h1, h2, Push]

/-- C8 witness: the claim applied to the startup registry, its registered
app, and a concrete absent identifier. -/
theorem C8_registry_create_and_get_witness :
    (ClientMap.Create initialClients "cam.reaction.ReactionCam").1 =
      .fatal "tried to overwrite existing client" ∧
    (ClientMap.Create initialClients "cam.reaction.ReactionCam").2 = initialClients ∧
    ClientMap.get (ClientMap.Create initialClients "cam.reaction.ReactionCam").2
      "cam.reaction.ReactionCam" = some (NewClient "cam.reaction.ReactionCam") ∧
    (Push initialClients "org.example.other" "feedbead" "production" [123]
      (.response 200 [])).1 = .invalidApp :=
  C8_registry_create_and_get initialClients "cam.reaction.ReactionCam"
    "org.example.other" "feedbead" "production" [123] (.response 200 [])
    (NewClient "cam.reaction.ReactionCam") (by decide) (by decide)

/-- C9 counterexample: on a 200 response the delivery attempt returns
without reading the body (main.go 170-171 return before the body read on
line 174), contradicting "reads the full response body before returning,
including when the status is 200". -/
theorem C9_counterexample :
    (Push initialClients "cam.reaction.ReactionCam" "feedbead" "production" [123]
        (.response 200 [1, 2, 3])).2.bodyRead = false := by decide

/-- C9 amended: for a registered application, a delivery attempt that
receives a response reads the full body before returning exactly when the
status is not 200; on a 200 response it returns without reading the body. -/
theorem C9_body_read_iff_failure (clients : ClientMap) (app tok env : String)
    (data body : List Nat) (status : Nat) (c : Client)
    (hc : ClientMap.get clients app = some c) :
    (Push clients app tok env data (.response status body)).2.bodyRead =
      !(status == 200) := by
  by_cases h : (status == 200) = true <;> simp [Push, hc, h]

/-- C9 witness: the amended claim evaluated at a 404 response. -/
theorem C9_body_read_iff_failure_witness :
    (Push initialClients "cam.reaction.ReactionCam" "feedbead" "production" [123]
        (.response 404 [9])).2.bodyRead = !((404 : Nat) == 200) :=
  C9_body_read_iff_failure initialClients "cam.reaction.ReactionCam" "feedbead"
    "production" [123] [9] 404 (NewClient "cam.reaction.ReactionCam") (by decide)

/-- C10: the classifier's Permanent and Retryable predicates are mutually
exclusive — no status code satisfies both, so the four-way verdict
(success / permanent / retryable / other) partitions all outcomes. -/
theorem C10_classifier_exclusive (pe : PushError) :
    (pe.Permanent && pe.Retryable) = false := by
  rcases pe with ⟨b, s⟩
  simp [PushError.Permanent, PushError.Retryable]
  omega
